import Mathlib

/-!
Shallow embedding of the feature-to-sequence forecasting pipeline
(src/model.py, src/features.py, src/data_loader.py) over exact rationals.
Machine floats are modelled by ℚ; a pandas DataFrame of numeric feature
columns is a column-name list plus a row-major list of rational rows;
raised Python exceptions are the `Except.error` channel; Python `None`
results are `Option.none`.
-/

/-- A pandas DataFrame restricted to its numeric feature columns:
`cols` are the column names in order, `rows` the row-major values. -/
structure DataFrame where
  cols : List String
  rows : List (List ℚ)
deriving DecidableEq, Repr

/-- Embeds `MODEL_DIR = "models"` from src/model.py line 15. -/
def MODEL_DIR : String := "models"

/-- Embeds `LOOKBACK_WINDOW = 60` from src/model.py line 17. -/
def LOOKBACK_WINDOW : ℕ := 60

/-- Embeds `PREDICTION_HORIZON = 1` from src/model.py line 18. -/
def PREDICTION_HORIZON : ℕ := 1

/-- Embeds `TARGET_VARIABLE = "Close"` from src/model.py line 19. -/
def TARGET_VARIABLE : String := "Close"

/-- Embeds `MIN_DATAFRAME_LENGTH = 90` from src/features.py line 40. -/
def MIN_DATAFRAME_LENGTH : ℕ := 90

/-- Fitted state of sklearn `MinMaxScaler(feature_range=(0, 1))`:
the per-feature data minima and maxima recorded by `fit`. -/
structure MinMaxScaler where
  mins : List ℚ
  maxs : List ℚ
deriving DecidableEq, Repr

/-- sklearn scale factor for one feature: `(1 - 0) / (max - min)`, with a
zero range replaced by 1 (sklearn `_handle_zeros_in_scale`). -/
def scaleFactor (mn mx : ℚ) : ℚ :=
  if mx - mn = 0 then 1 else 1 / (mx - mn)

/-- sklearn `MinMaxScaler.transform` on one feature value:
`x * scale_ + min_` with `min_ = -data_min * scale_`, i.e. `(x - mn) * s`. -/
def transformVal (mn mx x : ℚ) : ℚ := (x - mn) * scaleFactor mn mx

/-- sklearn `MinMaxScaler.inverse_transform` on one feature value:
`(y - min_) / scale_`, i.e. `y / s + mn`. -/
def inverseVal (mn mx y : ℚ) : ℚ := y / scaleFactor mn mx + mn

/-- sklearn `MinMaxScaler.transform` on one row of feature values. -/
def transformRow (sc : MinMaxScaler) (r : List ℚ) : List ℚ :=
  List.zipWith (fun x p => transformVal p.1 p.2 x) r (sc.mins.zip sc.maxs)

/-- sklearn `MinMaxScaler.inverse_transform` on one row of feature values. -/
def inverseRow (sc : MinMaxScaler) (r : List ℚ) : List ℚ :=
  List.zipWith (fun y p => inverseVal p.1 p.2 y) r (sc.mins.zip sc.maxs)

/-- Values of column `j` of a row-major table (total, with default 0;
every in-range access in the pipeline is within row bounds). -/
def colValues (data : List (List ℚ)) (j : ℕ) : List ℚ :=
  data.map (fun r => r.getD j 0)

/-- Minimum of a list of rationals (0 on the empty list, which the
pipeline never hits: fitting only happens on nonempty data). -/
def listMin : List ℚ → ℚ
  | [] => 0
  | x :: xs => xs.foldl min x

/-- Maximum of a list of rationals (0 on the empty list). -/
def listMax : List ℚ → ℚ
  | [] => 0
  | x :: xs => xs.foldl max x

/-- sklearn `MinMaxScaler.fit` over a row-major table: records the
column-wise minima and maxima. -/
def fitMinMax (data : List (List ℚ)) : MinMaxScaler :=
  let F := (data.headD []).length
  { mins := (List.range F).map (fun j => listMin (colValues data j))
    maxs := (List.range F).map (fun j => listMax (colValues data j)) }

/-- pandas `df[feats]` on one row: the row's values at the named columns,
in the order of `feats`. -/
def selectRow (cols feats : List String) (r : List ℚ) : List ℚ :=
  feats.map (fun f => r.getD (cols.indexOf f) 0)

/-- The scaled feature matrix that `preprocess_data` builds: select all
numeric columns, fit the scaler on the whole table, transform every row
(src/model.py lines 42-45). -/
def scaledData (df : DataFrame) : List (List ℚ) :=
  let data := df.rows.map (selectRow df.cols df.cols)
  data.map (transformRow (fitMinMax data))

/-- Embeds `preprocess_data` from src/model.py lines 26-57: length guard
returning the all-`None` tuple, hard `ValueError` when the target column
is absent, min-max scaling of the whole table, and the sliding windows
`X[k] = scaled[i-L : i]` with targets `y[k] = scaled[i + horizon - 1, close]`
for `i in range(L, N - horizon + 1)`.  The Python default
`lookback_window=LOOKBACK_WINDOW` is passed explicitly by callers here. -/
def preprocess_data (df : DataFrame) (lookback_window : ℕ) :
    Except String (Option (List (List (List ℚ)) × List ℚ × MinMaxScaler × List String)) :=
  if df.rows = [] ∨ df.rows.length ≤ lookback_window then .ok none
  else
    let features := df.cols
    if TARGET_VARIABLE ∉ features then
      .error "Target variable Close not in dataframe columns."
    else
      let data := df.rows.map (selectRow df.cols features)
      let scaler := fitMinMax data
      let scaled_data := data.map (transformRow scaler)
      let idxs := List.range' lookback_window
        (scaled_data.length - PREDICTION_HORIZON + 1 - lookback_window)
      let X := idxs.map (fun i => ((scaled_data.drop (i - lookback_window)).take lookback_window))
      let y := idxs.map (fun i =>
        (scaled_data.getD (i + PREDICTION_HORIZON - 1) []).getD (features.indexOf TARGET_VARIABLE) 0)
      if X = [] then .ok none
      else .ok (some (X, y, scaler, features))

/-- A trained Keras model, abstracted to its inference map: a window of
scaled feature rows to the scaled scalar prediction `model.predict(X)[0,0]`. -/
abbrev LSTMModel := List (List ℚ) → ℚ

/-- Python `ticker.replace(".NS", "")` (src/model.py line 81): removes every
non-overlapping occurrence of the substring `.NS`, left to right. -/
def stripNS : List Char → List Char
  | '.' :: 'N' :: 'S' :: rest => stripNS rest
  | c :: rest => c :: stripNS rest
  | [] => []

/-- Embeds `MODEL_FILENAME_TPL.format(ticker.replace(".NS", ""))` from
src/model.py lines 16 and 81: the persistence key for a ticker. -/
def model_path (ticker : String) : String :=
  MODEL_DIR ++ "/" ++ String.mk (stripNS ticker.toList) ++ "_lstm_model.keras"

/-- Python tail slice `values[-n:]` of a list: the last `n` elements, all
of them when `n = 0` or `n ≥ length` (negative-index slicing semantics). -/
def tailRows (rows : List (List ℚ)) (n : ℕ) : List (List ℚ) :=
  if n = 0 then rows else rows.drop (rows.length - n)

/-- Embeds `df_features[TARGET_VARIABLE].iloc[-1]` from src/model.py
line 158: the most recent actual close of the feature table. -/
def last_close (df : DataFrame) : ℚ :=
  (df.rows.getLastD []).getD (df.cols.indexOf TARGET_VARIABLE) 0

/-- Embeds `predict_next_move` from src/model.py lines 126-165.  The guard
at lines 132-138 returns the `None` result; the feature-name list is NOT
part of that guard, so `df_features[features]` with a missing list raises
(`Except.error`).  The prediction is inverse-scaled through a zero dummy
row carrying the scalar at the close column's index.  The Python default
`lookback_window=LOOKBACK_WINDOW` is passed explicitly by callers here. -/
def predict_next_move (model : Option LSTMModel) (df_features : Option DataFrame)
    (scaler : Option MinMaxScaler) (features : Option (List String))
    (lookback_window : ℕ) :
    Except String (Option (String × ℚ × ℚ)) :=
  match model, df_features, scaler with
  | some model, some df, some scaler =>
    if df.rows.length < lookback_window then .ok none
    else
      match features with
      | none => .error "KeyError: None is not a valid column list"
      | some feats =>
        if ¬ feats.all (fun f => f ∈ df.cols) then
          .error "KeyError: columns not in index"
        else
          let last_sequence := tailRows (df.rows.map (selectRow df.cols feats)) lookback_window
          let scaled_sequence := last_sequence.map (transformRow scaler)
          let predicted_price_scaled := model scaled_sequence
          let num_features := feats.length
          if TARGET_VARIABLE ∉ feats then
            .error "ValueError: Close is not in list"
          else
            let close_idx := feats.indexOf TARGET_VARIABLE
            let dummy_array := (List.range num_features).map
              (fun j => if j = close_idx then predicted_price_scaled else 0)
            let predicted_price := (inverseRow scaler dummy_array).getD close_idx 0
            if TARGET_VARIABLE ∉ df.cols then
              .error "KeyError: Close"
            else
              let lc := last_close df
              let direction := if predicted_price > lc then "Up" else "Down"
              let confidence := |predicted_price - lc| / lc
              .ok (some (direction, predicted_price, confidence))
  | _, _, _ => .ok none

/-- Embeds `train_model` from src/model.py lines 77-123.  The persisted
store is a map from file path to saved model; `fit` abstracts
`build_lstm_model` plus `model.fit(X_train, y_train, validation_data=...)`
(the trained network is not numerically modelled).  Returns the
`(model, scaler, features)` triple together with the store after any
`model.save`.  On the load path (file exists, no force-retrain) the code
returns `load_model(path), None, None`: scaler and feature list are never
persisted or restored. -/
def train_model (store : String → Option LSTMModel)
    (fit : List (List (List ℚ)) → List ℚ → List (List (List ℚ)) → List ℚ → LSTMModel)
    (ticker : String) (df_features : DataFrame) (force_retrain : Bool) :
    Except String ((Option LSTMModel × Option MinMaxScaler × Option (List String)) ×
      (String → Option LSTMModel)) :=
  let path := model_path ticker
  match store path, force_retrain with
  | some m, false => .ok ((some m, none, none), store)
  | _, _ =>
    match preprocess_data df_features LOOKBACK_WINDOW with
    | .error e => .error e
    | .ok none => .ok ((none, none, none), store)
    | .ok (some (X, y, scaler, features)) =>
      let split_index := X.length * 4 / 5
      let Xtrain := X.take split_index
      let Xval := X.drop split_index
      let ytrain := y.take split_index
      let yval := y.drop split_index
      if Xtrain = [] ∨ Xval = [] then .ok ((none, none, none), store)
      else
        let m := fit Xtrain ytrain Xval yval
        let store' := fun p => if p = path then some m else store p
        .ok ((some m, some scaler, some features), store')

/-- Embeds `generate_features` from src/features.py lines 36-51.  The body
past the length guard — third-party `ta.add_all_ta_features`, the
returns/volatility columns and the NaN trimming (lines 44-49) — is the
parameter `body`; the claims about this function concern only the
minimum-length guard, which returns the empty DataFrame `pd.DataFrame()`. -/
def generate_features (body : DataFrame → DataFrame) (df : DataFrame) : DataFrame :=
  if df.rows.length < MIN_DATAFRAME_LENGTH then { cols := [], rows := [] }
  else body df

/-- Embeds `NIFTY_50_TICKERS` from src/data_loader.py lines 10-60: every
ticker the sidebar offers, all carrying the NSE suffix `.NS`. -/
def NIFTY_50_TICKERS : List String :=
  ["RELIANCE.NS", "TCS.NS", "HDFCBANK.NS", "INFY.NS", "ICICIBANK.NS",
   "HINDUNILVR.NS", "SBIN.NS", "KOTAKBANK.NS", "BHARTIARTL.NS", "ITC.NS",
   "HDFC.NS", "ASIANPAINT.NS", "WIPRO.NS", "AXISBANK.NS", "LT.NS",
   "MARUTI.NS", "BAJFINANCE.NS", "ULTRACEMCO.NS", "HCLTECH.NS",
   "SUNPHARMA.NS", "ADANIENT.NS", "TITAN.NS", "TATASTEEL.NS", "ONGC.NS",
   "TATAMOTORS.NS", "POWERGRID.NS", "NTPC.NS", "COALINDIA.NS",
   "INDUSINDBK.NS", "HINDALCO.NS", "JSWSTEEL.NS", "DRREDDY.NS", "M&M.NS",
   "GRASIM.NS", "CIPLA.NS", "ADANIPORTS.NS", "SBILIFE.NS", "BAJAJFINSV.NS",
   "EICHERMOT.NS", "DIVISLAB.NS", "HEROMOTOCO.NS", "BRITANNIA.NS",
   "APOLLOHOSP.NS", "UPL.NS", "NESTLEIND.NS", "TECHM.NS", "BPCL.NS",
   "TATACONSUM.NS", "WIPRO.NS"]

/-- The key derivation the spec describes, for comparison with the code:
the ticker with a trailing exchange suffix (NSE `.NS` or BSE `.BO`, the
two exchanges the application surface names) removed. -/
def stripExchangeSuffixSpec (t : String) : String :=
  let cs := t.toList
  if 3 ≤ cs.length ∧ cs.drop (cs.length - 3) = ['.', 'N', 'S'] then
    String.mk (cs.take (cs.length - 3))
  else if 3 ≤ cs.length ∧ cs.drop (cs.length - 3) = ['.', 'B', 'O'] then
    String.mk (cs.take (cs.length - 3))
  else t

/-- The windows component of a `preprocess_data` result (empty on the
`None` tuple or an exception): the sequences a training run fits on. -/
def windowsOf
    (r : Except String (Option (List (List (List ℚ)) × List ℚ × MinMaxScaler × List String))) :
    List (List (List ℚ)) :=
  match r with
  | .ok (some (X, _, _, _)) => X
  | _ => []

/-! Concrete inputs used to exercise the pipeline at specific points. -/

/-- A constant model predicting the scaled value 1/2, for concrete runs. -/
def mHalf : LSTMModel := fun _ => 1/2

/-- A constant model predicting the scaled value 105/200, for concrete runs. -/
def mUp : LSTMModel := fun _ => 105/200

/-- A single-column, single-row feature table with Close = 2. -/
def dfOne : DataFrame := ⟨["Close"], [[2]]⟩

/-- A scaler fitted with bounds [0, 1] on the one Close feature. -/
def scUnit : MinMaxScaler := ⟨[0], [1]⟩

/-- A scaler fitted with bounds [0, 200] on the one Close feature. -/
def scWide : MinMaxScaler := ⟨[0], [200]⟩

/-- A scaler fitted with bounds [-200, 0] on the one Close feature. -/
def scNeg : MinMaxScaler := ⟨[-200], [0]⟩

/-- A feature table whose most recent close is 100. -/
def dfHundred : DataFrame := ⟨["Close"], [[100]]⟩

/-- A feature table whose most recent close is the negative price -100. -/
def dfNegClose : DataFrame := ⟨["Close"], [[-100]]⟩

/-- A five-row Close-only feature table for windowing runs. -/
def dfFive : DataFrame := ⟨["Close"], [[1], [2], [3], [4], [5]]⟩

/-- An 89-row table, one short of the feature-generation minimum. -/
def dfShort : DataFrame := ⟨["Close"], List.replicate 89 [0]⟩

/-- A 90-row table, exactly at the feature-generation minimum. -/
def dfMin : DataFrame := ⟨["Close"], List.replicate 90 [0]⟩

/-- A 30-row Close-only table, matching the smallest slider lookback. -/
def dfThirty : DataFrame := ⟨["Close"], List.replicate 30 [0]⟩

/-- A model as restored by `load_model` from a saved file. -/
def mSaved : LSTMModel := fun _ => 0

/-- A store whose model file exists for every key (in particular for the
ticker being loaded), as after a completed earlier training run. -/
def storeLoaded : String → Option LSTMModel := fun _ => some mSaved

/-- An abstract training routine, standing in for `build_lstm_model` plus
`model.fit`. -/
def fitZero : List (List (List ℚ)) → List ℚ → List (List (List ℚ)) → List ℚ → LSTMModel :=
  fun _ _ _ _ => fun _ => 0

/-! Helper lemmas shared across the development. -/

/-- One scaled value maps back to itself: the sklearn inverse transform
undoes the forward transform exactly (the scale factor is never zero). -/
lemma inverseVal_transformVal (mn mx v : ℚ) :
    inverseVal mn mx (transformVal mn mx v) = v := by
  unfold inverseVal transformVal scaleFactor
  by_cases h : mx - mn = 0
  · simp [h]
  · rw [if_neg h]
    field_simp

/-- Row-level round trip over the zipped per-feature bounds. -/
lemma roundtrip_aux (ms Ms x : List ℚ) (h : x.length ≤ min ms.length Ms.length) :
    List.zipWith (fun y p => inverseVal p.1 p.2 y)
      (List.zipWith (fun v p => transformVal p.1 p.2 v) x (ms.zip Ms)) (ms.zip Ms) = x := by
  induction x generalizing ms Ms with
  | nil => simp
  | cons a as ih =>
    cases ms with
    | nil => simp at h
    | cons m ms' =>
      cases Ms with
      | nil => simp at h
      | cons M Ms' =>
        simp only [List.zip_cons_cons, List.zipWith_cons_cons, inverseVal_transformVal,
          List.cons.injEq, true_and]
        exact ih ms' Ms' (by simp at h ⊢; omega)

/-- Inversion of a successful forecast: a returned triple carries the
direction computed by the tie-breaking comparison against the most recent
close, and the relative-move confidence, both evaluated at the returned
price. -/
lemma predict_success_inv (model : LSTMModel) (df : DataFrame) (sc : MinMaxScaler)
    (feats : List String) (lb : ℕ) (dir : String) (price conf : ℚ)
    (h : predict_next_move (some model) (some df) (some sc) (some feats) lb =
      .ok (some (dir, price, conf))) :
    dir = (if last_close df < price then "Up" else "Down") ∧
    conf = |price - last_close df| / last_close df := by
  simp only [predict_next_move] at h
  split at h
  · exact absurd h (by simp)
  · split at h
    · exact absurd h (by simp)
    · split at h
      · exact absurd h (by simp)
      · split at h
        · exact absurd h (by simp)
        · simp only [Except.ok.injEq, Option.some.injEq, Prod.mk.injEq] at h
          obtain ⟨h1, h2, h3⟩ := h
          subst h2
          exact ⟨h1.symm, h3.symm⟩

/-- C9: for every feature vector whose components lie within the fitted
per-feature min/max bounds, the fitted scaler's inverse transform undoes
its forward transform exactly (over exact rationals, the floating-point
round trip is an identity). -/
theorem scaler_roundtrip (sc : MinMaxScaler) (x : List ℚ)
    (hlen : x.length ≤ min sc.mins.length sc.maxs.length)
    (hbounds : ∀ k, k < x.length →
      sc.mins.getD k 0 ≤ x.getD k 0 ∧ x.getD k 0 ≤ sc.maxs.getD k 0) :
    inverseRow sc (transformRow sc x) = x := by
  unfold inverseRow transformRow
  exact roundtrip_aux sc.mins sc.maxs x hlen

/-- Witness for C9 at the concrete in-bounds vector [1, 2] under bounds
([0, 1], [2, 3]). -/
theorem scaler_roundtrip_witness :
    inverseRow ⟨[0, 1], [2, 3]⟩ (transformRow ⟨[0, 1], [2, 3]⟩ [1, 2]) = [1, 2] :=
  scaler_roundtrip ⟨[0, 1], [2, 3]⟩ [1, 2] (by decide) (by decide)

/-- C5: every successful forecast's direction is Up exactly when the
predicted price strictly exceeds the most recent actual close, and Down
otherwise (ties resolve to Down). -/
theorem predict_direction_rule (model : LSTMModel) (df : DataFrame) (sc : MinMaxScaler)
    (feats : List String) (lb : ℕ) (dir : String) (price conf : ℚ)
    (h : predict_next_move (some model) (some df) (some sc) (some feats) lb =
      .ok (some (dir, price, conf))) :
    dir = (if last_close df < price then "Up" else "Down") :=
  (predict_success_inv model df sc feats lb dir price conf h).1

/-- Witness for C5: a concrete run predicting 1/2 against a last close of
2 comes out Down. -/
theorem predict_direction_rule_witness :
    ("Down" : String) = (if last_close dfOne < 1/2 then "Up" else "Down") :=
  predict_direction_rule mHalf dfOne scUnit ["Close"] 1 "Down" (1/2) (3/4) (by
    norm_num [predict_next_move, mHalf, dfOne, scUnit, tailRows, selectRow, transformRow,
      transformVal, inverseRow, inverseVal, scaleFactor, last_close, TARGET_VARIABLE,
      List.indexOf, List.findIdx, List.findIdx.go, abs_of_nonneg, abs_of_nonpos])

/-- C4 (counterexample to the claim as stated): a successful forecast over
a table whose most recent close is the negative value -100 and whose
predicted price is -95 returns the confidence -1/20, which is negative, so
the returned confidence is not always nonnegative. -/
theorem predict_confidence_negative_example :
    predict_next_move (some mUp) (some dfNegClose) (some scNeg) (some ["Close"]) 1 =
      .ok (some ("Up", -95, -(1/20))) ∧ (-(1/20) : ℚ) < 0 := by
  refine ⟨?_, by norm_num⟩
  norm_num [predict_next_move, mUp, dfNegClose, scNeg, tailRows, selectRow, transformRow,
    transformVal, inverseRow, inverseVal, scaleFactor, last_close, TARGET_VARIABLE,
    List.indexOf, List.findIdx, List.findIdx.go, abs_of_nonneg, abs_of_nonpos]

/-- C4 (amended): every successful forecast returns confidence equal to
|predicted − last_close| / last_close exactly, and whenever the most
recent actual close is positive — the case for market prices — that
confidence is nonnegative. -/
theorem predict_confidence_formula (model : LSTMModel) (df : DataFrame) (sc : MinMaxScaler)
    (feats : List String) (lb : ℕ) (dir : String) (price conf : ℚ)
    (h : predict_next_move (some model) (some df) (some sc) (some feats) lb =
      .ok (some (dir, price, conf)))
    (hpos : 0 < last_close df) :
    conf = |price - last_close df| / last_close df ∧ 0 ≤ conf := by
  obtain ⟨-, h2⟩ := predict_success_inv model df sc feats lb dir price conf h
  refine ⟨h2, ?_⟩
  rw [h2]
  exact div_nonneg (abs_nonneg _) hpos.le

/-- Witness for C4 at the claim's own literal example: last close 100 and
predicted price 105 give confidence 1/20 = 0.05. -/
theorem predict_confidence_formula_witness :
    ((1/20 : ℚ) = |105 - last_close dfHundred| / last_close dfHundred ∧ (0:ℚ) ≤ 1/20) :=
  predict_confidence_formula mUp dfHundred scWide ["Close"] 1 "Up" 105 (1/20)
    (by
      norm_num [predict_next_move, mUp, dfHundred, scWide, tailRows, selectRow, transformRow,
        transformVal, inverseRow, inverseVal, scaleFactor, last_close, TARGET_VARIABLE,
        List.indexOf, List.findIdx, List.findIdx.go, abs_of_nonneg, abs_of_nonpos])
    (by norm_num [last_close, dfHundred, TARGET_VARIABLE, List.indexOf, List.findIdx,
      List.findIdx.go])

/-- C2 (counterexample to the claim as stated): with model, scaler and a
sufficiently long feature table all present but the feature-name list
missing, `predict_next_move` raises (the guard never checks the list), so
a missing feature list does not produce the absent result. -/
theorem predict_missing_feature_list_raises :
    predict_next_move (some mSaved) (some dfOne) (some scUnit) none 1 =
      .error "KeyError: None is not a valid column list" ∧
    predict_next_move (some mSaved) (some dfOne) (some scUnit) none 1 ≠ .ok none := by
  refine ⟨rfl, ?_⟩
  intro hc
  exact Except.noConfusion hc

/-- C2 (amended): whenever the model, the scaler, or the feature table is
missing, or the table has fewer than lookback_window rows, the forecast
returns the absent result rather than raising; the feature-name list is
the one prerequisite the guard does not cover. -/
theorem predict_prereq_guard_returns_none (model : Option LSTMModel) (df : Option DataFrame)
    (sc : Option MinMaxScaler) (feats : Option (List String)) (lb : ℕ)
    (h : model = none ∨ sc = none ∨ df = none ∨
      ∃ d, df = some d ∧ d.rows.length < lb) :
    predict_next_move model df sc feats lb = .ok none := by
  rcases h with h | h | h | ⟨d, hd, hlen⟩
  · subst h; cases df <;> cases sc <;> rfl
  · subst h; cases model <;> cases df <;> rfl
  · subst h; cases model <;> cases sc <;> rfl
  · subst hd
    cases model with
    | none => rfl
    | some m =>
      cases sc with
      | none => rfl
      | some s => simp [predict_next_move, hlen]

/-- Witness for C2 (amended) at a missing model. -/
theorem predict_prereq_guard_returns_none_witness :
    predict_next_move none (some dfOne) (some scUnit) (some ["Close"]) 1 = .ok none :=
  predict_prereq_guard_returns_none none (some dfOne) (some scUnit) (some ["Close"]) 1
    (Or.inl rfl)

/-- C6 (counterexample to the claim as stated): a one-row table without a
Close column falls into the length guard and returns the all-`None`
result, so the missing target does not always raise the configuration
error. -/
theorem preprocess_short_missing_target_returns_none :
    preprocess_data ⟨["Open"], [[1]]⟩ 60 = .ok none ∧
    TARGET_VARIABLE ∉ (⟨["Open"], [[1]]⟩ : DataFrame).cols :=
  ⟨rfl, by decide⟩

/-- C6 (amended): whenever the supplied table is nonempty with strictly
more rows than the lookback window — so the length guard does not fire
first — a missing Close column raises the configuration `ValueError`. -/
theorem preprocess_missing_target_raises (df : DataFrame) (L : ℕ)
    (hlen : L < df.rows.length) (habs : TARGET_VARIABLE ∉ df.cols) :
    preprocess_data df L = .error "Target variable Close not in dataframe columns." := by
  have hne : df.rows ≠ [] := by
    intro he
    rw [he] at hlen
    simp at hlen
  have hguard : ¬(df.rows = [] ∨ df.rows.length ≤ L) := by
    push_neg
    exact ⟨hne, by omega⟩
  unfold preprocess_data
  rw [if_neg hguard, if_pos habs]

/-- Witness for C6 (amended) at a two-row Close-less table with lookback 1. -/
theorem preprocess_missing_target_raises_witness :
    preprocess_data ⟨["Open"], [[1], [2]]⟩ 1 =
      .error "Target variable Close not in dataframe columns." :=
  preprocess_missing_target_raises ⟨["Open"], [[1], [2]]⟩ 1 (by decide) (by decide)

/-- C7: tables shorter than 90 rows yield the empty table (no exception is
modelled or raised on this path), and tables of 90 rows or more pass the
length check untouched, proceeding to the feature computation `body`. -/
theorem generate_features_min_length (body : DataFrame → DataFrame) (df : DataFrame) :
    (df.rows.length < MIN_DATAFRAME_LENGTH →
      generate_features body df = { cols := [], rows := [] }) ∧
    (MIN_DATAFRAME_LENGTH ≤ df.rows.length → generate_features body df = body df) := by
  constructor
  · intro h
    simp [generate_features, h]
  · intro h
    simp [generate_features, Nat.not_lt.mpr h]

/-- Witness for C7 at an 89-row table (rejected as empty) and a 90-row
table (passed through). -/
theorem generate_features_min_length_witness :
    generate_features id dfShort = { cols := [], rows := [] } ∧
    generate_features id dfMin = dfMin :=
  ⟨(generate_features_min_length id dfShort).1 (by decide),
   (generate_features_min_length id dfMin).2 (by decide)⟩

/-- C8 (counterexample to the claim as stated): the BSE-suffixed ticker
TCS.BO keeps its exchange suffix in the persistence key, because the code
only removes occurrences of the literal substring .NS. -/
theorem model_path_bo_suffix_not_stripped :
    model_path "TCS.BO" = "models/TCS.BO_lstm_model.keras" ∧
    stripExchangeSuffixSpec "TCS.BO" = "TCS" ∧
    model_path "TCS.BO" ≠
      MODEL_DIR ++ "/" ++ stripExchangeSuffixSpec "TCS.BO" ++ "_lstm_model.keras" := by
  refine ⟨rfl, by decide, by decide⟩

/-- C8 (amended): for every ticker the application offers (the NIFTY 50
list, all carrying the NSE suffix .NS), the persistence key is the ticker
with its exchange suffix stripped; in general the code removes every
occurrence of the substring .NS and no other exchange suffix. -/
theorem model_path_nifty_strips_ns_suffix (t : String) (ht : t ∈ NIFTY_50_TICKERS) :
    model_path t = MODEL_DIR ++ "/" ++ stripExchangeSuffixSpec t ++ "_lstm_model.keras" := by
  fin_cases ht <;> rfl

/-- Witness for C8 (amended) at the default sidebar ticker RELIANCE.NS. -/
theorem model_path_nifty_strips_ns_suffix_witness :
    model_path "RELIANCE.NS" =
      MODEL_DIR ++ "/" ++ stripExchangeSuffixSpec "RELIANCE.NS" ++ "_lstm_model.keras" :=
  model_path_nifty_strips_ns_suffix "RELIANCE.NS" (by decide)

/-- C1 (the code at the failing input): when a saved model file exists for
the ticker and no retrain is forced, `train_model` returns the loaded
model with `None` in place of both the scaler and the feature list — the
persisted artifact never bundled them — so the subsequent inference step
has no scaler to reuse and produces no forecast at all, instead of
reproducing the pre-save output. -/
theorem train_model_load_path_drops_bundle :
    train_model storeLoaded fitZero "TCS" dfOne false =
      .ok ((some mSaved, none, none), storeLoaded) ∧
    predict_next_move (some mSaved) (some dfOne) none none LOOKBACK_WINDOW = .ok none :=
  ⟨rfl, rfl⟩

/-- A selected row has one entry per requested feature. -/
lemma length_selectRow (cols feats : List String) (r : List ℚ) :
    (selectRow cols feats r).length = feats.length := by
  simp [selectRow]

/-- A transformed row is as long as the shorter of the row and the fitted
bounds. -/
lemma length_transformRow (sc : MinMaxScaler) (r : List ℚ) :
    (transformRow sc r).length = min r.length (min sc.mins.length sc.maxs.length) := by
  simp [transformRow, List.length_zipWith, List.length_zip]

/-- The fitted bounds have one entry per column of the first data row. -/
lemma fitMinMax_lengths (data : List (List ℚ)) :
    (fitMinMax data).mins.length = (data.headD []).length ∧
    (fitMinMax data).maxs.length = (data.headD []).length := by
  simp [fitMinMax]

/-- The scaled matrix has one row per input row. -/
lemma scaledData_length (df : DataFrame) : (scaledData df).length = df.rows.length := by
  simp [scaledData]

/-- Every scaled row has one entry per numeric column of the table. -/
lemma scaledData_mem_length (df : DataFrame) (hne : df.rows ≠ []) :
    ∀ r ∈ scaledData df, r.length = df.cols.length := by
  intro r hr
  simp only [scaledData, List.mem_map] at hr
  obtain ⟨a, ⟨r', hr', rfl⟩, rfl⟩ := hr
  have hhead : ((df.rows.map (selectRow df.cols df.cols)).headD []).length = df.cols.length := by
    cases hrows : df.rows with
    | nil => exact absurd hrows hne
    | cons r0 rest => simp [hrows, length_selectRow]
  rw [length_transformRow, length_selectRow, (fitMinMax_lengths _).1, (fitMinMax_lengths _).2,
    hhead]
  omega

/-- Explicit form of a successful preprocessing run: when the target
column is present and the table has more rows than the lookback length,
the result is the window list over `range' L (N - L)` with its aligned
targets, the whole-table scaler, and the numeric column names. -/
lemma preprocess_data_of_lt (df : DataFrame) (L : ℕ)
    (hClose : TARGET_VARIABLE ∈ df.cols) (hL : L < df.rows.length) :
    preprocess_data df L = .ok (some (
      (List.range' L (df.rows.length - L)).map
        (fun i => ((scaledData df).drop (i - L)).take L),
      (List.range' L (df.rows.length - L)).map
        (fun i => ((scaledData df).getD (i + PREDICTION_HORIZON - 1) []).getD
          (df.cols.indexOf TARGET_VARIABLE) 0),
      fitMinMax (df.rows.map (selectRow df.cols df.cols)),
      df.cols)) := by
  have hne : df.rows ≠ [] := by
    intro he
    rw [he] at hL
    simp at hL
  have hguard : ¬(df.rows = [] ∨ df.rows.length ≤ L) := by
    push_neg
    exact ⟨hne, by omega⟩
  have hcnt : ((df.rows.map (selectRow df.cols df.cols)).map
      (transformRow (fitMinMax (df.rows.map (selectRow df.cols df.cols))))).length
        - PREDICTION_HORIZON + 1 - L = df.rows.length - L := by
    simp only [List.length_map, PREDICTION_HORIZON]
    omega
  have hXne : ¬((List.range' L (df.rows.length - L)).map
      (fun i => ((scaledData df).drop (i - L)).take L) = []) := by
    simp only [List.map_eq_nil_iff, List.range'_eq_nil]
    omega
  simp only [preprocess_data, scaledData, hcnt]
  rw [if_neg hguard, if_neg (not_not_intro hClose), if_neg (by simpa [scaledData] using hXne)]

/-- Inversion of a successful preprocessing run: success implies the
target column was present, the table was long enough, and the windows are
exactly the sliding slices of the scaled matrix. -/
lemma preprocess_data_ok_some (df : DataFrame) (L : ℕ) (X : List (List (List ℚ)))
    (y : List ℚ) (sc : MinMaxScaler) (fe : List String)
    (h : preprocess_data df L = .ok (some (X, y, sc, fe))) :
    TARGET_VARIABLE ∈ df.cols ∧ L < df.rows.length ∧
    X = (List.range' L (df.rows.length - L)).map
      (fun i => ((scaledData df).drop (i - L)).take L) := by
  by_cases hL : df.rows.length ≤ L
  · have hnone : preprocess_data df L = .ok none := by
      unfold preprocess_data
      rw [if_pos (Or.inr hL)]
    rw [hnone] at h
    simp at h
  · push_neg at hL
    by_cases hClose : TARGET_VARIABLE ∈ df.cols
    · rw [preprocess_data_of_lt df L hClose hL] at h
      simp only [Except.ok.injEq, Option.some.injEq, Prod.mk.injEq] at h
      exact ⟨hClose, hL, h.1.symm⟩
    · have hne : df.rows ≠ [] := by
        intro he
        rw [he] at hL
        simp at hL
      have herr : preprocess_data df L =
          .error "Target variable Close not in dataframe columns." := by
        unfold preprocess_data
        rw [if_neg (by push_neg; exact ⟨hne, by omega⟩), if_pos hClose]
      rw [herr] at h
      simp at h

/-- Every produced window is exactly the lookback length long. -/
lemma window_length_mem (df : DataFrame) (L : ℕ) (hL : L < df.rows.length)
    (w : List (List ℚ))
    (hw : w ∈ (List.range' L (df.rows.length - L)).map
      (fun i => ((scaledData df).drop (i - L)).take L)) :
    w.length = L := by
  simp only [List.mem_map] at hw
  obtain ⟨i, hi, rfl⟩ := hw
  obtain ⟨hi1, hi2⟩ := List.mem_range'_1.mp hi
  rw [List.length_take, List.length_drop, scaledData_length]
  omega

/-- C3: with the target column present, preprocessing a table of N rows
with lookback L yields exactly max(0, N − L − horizon + 1) windows (the
truncated natural subtraction), each window of shape (L, F) equal to the
scaled slice rows[i−L : i] and paired with the scaled close of row
i + horizon − 1, and yields the empty (all-None) output when N ≤ L. -/
theorem preprocess_window_spec (df : DataFrame) (L : ℕ)
    (hClose : TARGET_VARIABLE ∈ df.cols) :
    (df.rows.length ≤ L → preprocess_data df L = .ok none) ∧
    (L < df.rows.length →
      ∃ X y scaler features,
        preprocess_data df L = .ok (some (X, y, scaler, features)) ∧
        X.length = df.rows.length - L - PREDICTION_HORIZON + 1 ∧
        y.length = df.rows.length - L - PREDICTION_HORIZON + 1 ∧
        (∀ w ∈ X, w.length = L ∧ ∀ r ∈ w, r.length = df.cols.length) ∧
        (∀ k, k < X.length →
          X.getD k [] = ((scaledData df).drop k).take L ∧
          y.getD k 0 = ((scaledData df).getD (L + k + PREDICTION_HORIZON - 1) []).getD
            (df.cols.indexOf TARGET_VARIABLE) 0)) := by
  constructor
  · intro h
    unfold preprocess_data
    rw [if_pos (Or.inr h)]
  · intro hL
    refine ⟨_, _, _, _, preprocess_data_of_lt df L hClose hL, ?_, ?_, ?_, ?_⟩
    · simp only [List.length_map, List.length_range', PREDICTION_HORIZON]
      omega
    · simp only [List.length_map, List.length_range', PREDICTION_HORIZON]
      omega
    · intro w hw
      refine ⟨window_length_mem df L hL w hw, ?_⟩
      intro r hr
      simp only [List.mem_map] at hw
      obtain ⟨i, hi, rfl⟩ := hw
      have hmem : r ∈ scaledData df := List.mem_of_mem_drop (List.mem_of_mem_take hr)
      exact scaledData_mem_length df
        (by intro he; rw [he] at hL; simp at hL) r hmem
    · intro k hk
      have hk' : k < (List.range' L (df.rows.length - L)).length := by
        simpa using hk
      constructor
      · rw [List.getD_eq_getElem _ _ (by simpa using hk)]
        rw [List.getElem_map, List.getElem_range'_1]
        have : L + k - L = k := by omega
        rw [this]
      · rw [List.getD_eq_getElem _ _ (by simpa using hk)]
        rw [List.getElem_map, List.getElem_range'_1]

/-- Witness for C3: the five-row table with lookback 2 yields a successful
run with 5 − 2 − 1 + 1 = 3 windows. -/
theorem preprocess_window_spec_witness :
    ∃ X y scaler features,
      preprocess_data dfFive 2 = .ok (some (X, y, scaler, features)) ∧
      X.length = dfFive.rows.length - 2 - PREDICTION_HORIZON + 1 := by
  obtain ⟨X, y, sc, fe, h1, h2, -⟩ :=
    (preprocess_window_spec dfFive 2 (by decide)).2 (by decide)
  exact ⟨X, y, sc, fe, h1, h2⟩

/-- C10: training always windows its data with the fixed default lookback
of 60 — `train_model` passes no lookback to `preprocess_data`, so every
training window has length LOOKBACK_WINDOW = 60 no matter what the caller
configured — while inference slices exactly the configured `lb` most
recent rows (30 ≤ lb ≤ 90 from the sidebar), so the inference window
length can differ from the trained one. -/
theorem train_lookback_fixed (df dfPred : DataFrame) (featsPred : List String) (lb : ℕ)
    (h30 : 30 ≤ lb) (h90 : lb ≤ 90) (hrows : lb ≤ dfPred.rows.length) :
    LOOKBACK_WINDOW = 60 ∧
    (∀ w ∈ windowsOf (preprocess_data df LOOKBACK_WINDOW), w.length = LOOKBACK_WINDOW) ∧
    (tailRows (dfPred.rows.map (selectRow dfPred.cols featsPred)) lb).length = lb := by
  refine ⟨rfl, ?_, ?_⟩
  · intro w hw
    cases hres : preprocess_data df LOOKBACK_WINDOW with
    | error e => simp [windowsOf, hres] at hw
    | ok o =>
      cases o with
      | none => simp [windowsOf, hres] at hw
      | some t =>
        obtain ⟨X, y, sc, fe⟩ := t
        simp only [windowsOf, hres] at hw
        obtain ⟨-, hL, hX⟩ :=
          preprocess_data_ok_some df LOOKBACK_WINDOW X y sc fe hres
        subst hX
        exact window_length_mem df LOOKBACK_WINDOW hL w hw
  · rw [tailRows, if_neg (by omega)]
    rw [List.length_drop, List.length_map]
    omega

/-- Witness for C10 at the smallest slider lookback 30 over a 30-row
table: training windows are 60 long, the inference slice is 30 long. -/
theorem train_lookback_fixed_witness :
    LOOKBACK_WINDOW = 60 ∧
    (∀ w ∈ windowsOf (preprocess_data dfOne LOOKBACK_WINDOW), w.length = LOOKBACK_WINDOW) ∧
    (tailRows (dfThirty.rows.map (selectRow dfThirty.cols ["Close"])) 30).length = 30 :=
  train_lookback_fixed dfOne dfThirty ["Close"] 30 (by decide) (by decide) (by decide)
